import Mathlib

/-!
Shallow embedding of `process_manifest.py` (portal_client).

Python strings are modelled as Lean `String` (a structure wrapping
`List Char`); the Python string primitives used by the source
(`split`, `lstrip`, `startswith`, `lower`, `upper`, `join`) are
re-implemented structurally below so that every definition is
executable by kernel reduction.

Bytes are modelled as `Nat`, byte strings as `List Nat`.  The
filesystem is a map from path to file content; the network is an
oracle (`Env`) saying, for each URL, whether the various transport
calls succeed and what the remote content is.  Python exceptions are
modelled with `Except String`; transport and filesystem side effects
are recorded in an event trace so that claims of the form "no network
call happens" can be stated.
-/

namespace Portal

/-! ## Python string primitives -/

/-- Python `str.split(sep)` for a non-empty separator, on char lists.
The fuel argument is an upper bound on the number of steps; it is
instantiated with `length + 1`, which suffices because every step
consumes at least one character. -/
def splitAux (sep : List Char) (cur : List Char) :
    Nat → List Char → List (List Char)
  | 0, _ => [cur.reverse]
  | _ + 1, [] => [cur.reverse]
  | fuel + 1, c :: rest =>
    if sep.isPrefixOf (c :: rest) then
      cur.reverse :: splitAux sep [] fuel ((c :: rest).drop sep.length)
    else
      splitAux sep (c :: cur) fuel rest

/-- Python `s.split(sep)` (non-empty `sep`). -/
def pySplit (sep s : String) : List String :=
  (splitAux sep.data [] (s.data.length + 1) s.data).map fun l => ⟨l⟩

/-- Python `s.startswith(pre)`. -/
def pyStartsWith (s pre : String) : Bool :=
  pre.data.isPrefixOf s.data

/-- ASCII lower-casing of one character (the schemes used by the
source are all ASCII). -/
def charLower (c : Char) : Char :=
  if 'A' ≤ c ∧ c ≤ 'Z' then Char.ofNat (c.toNat + 32) else c

/-- ASCII upper-casing of one character. -/
def charUpper (c : Char) : Char :=
  if 'a' ≤ c ∧ c ≤ 'z' then Char.ofNat (c.toNat - 32) else c

/-- Python `s.lower()` (ASCII). -/
def pyToLower (s : String) : String := ⟨s.data.map charLower⟩

/-- Python `s.upper()` (ASCII). -/
def pyToUpper (s : String) : String := ⟨s.data.map charUpper⟩

/-- Python `sep.join(parts)`. -/
def joinWith (sep : String) : List String → String
  | [] => ""
  | [x] => x
  | x :: y :: rest => x ++ sep ++ joinWith sep (y :: rest)

/-- `headD` on string lists (Python's `l[0]` where the list is known
to be non-empty, with a default for totality). -/
def headD (l : List String) (d : String) : String := l.headD d

/-- Python `l[-1]` for the (never empty) result of `split`. -/
def lastD (d : String) : List String → String
  | [] => d
  | [x] => x
  | _ :: y :: rest => lastD d (y :: rest)

/-- Python `s.lstrip(chars)` on char lists: removes every leading
character drawn from the set `cs`. -/
def lstripSet (cs : List Char) : List Char → List Char
  | [] => []
  | c :: rest => if c ∈ cs then lstripSet cs rest else c :: rest

/-- Substring check (`pat in s` in Python). -/
def containsSub (pat : List Char) : List Char → Bool
  | [] => pat.isPrefixOf ([] : List Char)
  | c :: rest => pat.isPrefixOf (c :: rest) || containsSub pat rest

/-- Python `pat in s` for strings. -/
def strContains (s pat : String) : Bool := containsSub pat.data s.data

/-! ## Endpoint selection — `get_prioritized_endpoint` (lines 297-327) -/

/-- Source lines 321-323: the demo-dataset rewrite of one URL.
`elements[2]` and `elements[4]` are modelled with `getD` (Python
raises `IndexError` when the URL has fewer segments; no claim depends
on that corner). `elements[-4:]` is the final four segments. -/
def rewrite_demo_url (url : String) : String :=
  let elements := pySplit "/" url
  "s3://" ++ elements.getD 2 "" ++ "/DEMO/" ++ elements.getD 4 "" ++ "/" ++
    joinWith "/" (elements.drop (elements.length - 4))

/-- The conditional demo rewrite applied to a selected URL
(source lines 319-323). -/
def apply_demo_fix (url : String) : String :=
  if strContains url "s3://" && strContains url "HMDEMO" then
    rewrite_demo_url url
  else url

/-- Source lines 297-327.  `ec2` is the result of the
`get_instance_metadata` probe (truthiness of the returned mapping),
consulted only when the first priority token is the empty string. -/
def get_prioritized_endpoint (ec2 : Bool) (manifest_urls priorities : String) :
    List String :=
  let urls := pySplit "," manifest_urls
  let eps0 := pySplit "," priorities
  let eps :=
    if headD eps0 "" = "" then
      if ec2 then ["S3", "HTTP", "FTP"] else ["HTTP", "FTP", "S3"]
    else eps0
  eps.foldl
    (fun url_list ep =>
      urls.foldl
        (fun url_list url =>
          if pyStartsWith url (pyToLower ep) then
            url_list ++ [apply_demo_fix url]
          else url_list)
        url_list)
    []

/-- The scheme of a URL in the ordinary sense: the token before
`://`.  Used to state the spec's "URLs whose scheme appears in the
priority set" claims; the source itself matches by string prefix. -/
def urlScheme (u : String) : String := headD (pySplit "://" u) ""

/-! ## State, events and the network oracle -/

/-- Observable side effects: transport calls and filesystem changes. -/
inductive Ev where
  /-- `urllib.request.urlopen` with the given `Range` header value
  (lines 190-191). -/
  | httpOpen (url : String) (rangeHeader : String)
  /-- `urllib.request.urlopen(url)` issued by `get_file_size`
  (line 224). -/
  | httpSizeOpen (url : String)
  /-- One `res.read(block_size)` call (line 245). -/
  | httpRead (url : String)
  /-- `FTP(host)` + login (lines 35-36). -/
  | ftpConnect (host : String)
  /-- `ftp.mlsd(file_path)` (line 203). -/
  | ftpMlsd (filePath : String)
  /-- `ftp.retrbinary` transfer (line 207). -/
  | ftpRetrieve (url : String)
  /-- `ftp.size(file_path)` (line 229). -/
  | ftpSizeCmd (url : String)
  /-- `boto` `get_bucket`/`get_key` (lines 287-290). -/
  | s3GetBucket (url : String)
  /-- One ranged `get_contents_as_string` call (line 278). -/
  | s3RangeRead (url : String)
  /-- Creation of (or append to) a file on disk. -/
  | fsTouch (path : String)
  /-- `shutil.move(src, dst)` (line 141). -/
  | fsMove (src dst : String)
deriving DecidableEq, Repr

/-- Filesystem: path to content, `none` when the file does not exist. -/
def FS : Type := String → Option (List Nat)

/-- Program state: filesystem plus the event trace. -/
structure St where
  fs : FS
  events : List Ev

/-- Append an event. -/
def emitSt (st : St) (e : Ev) : St :=
  { st with events := st.events ++ [e] }

/-- Append bytes to a file, creating it when absent (mode `'ab'`). -/
def appendF (fs : FS) (p : String) (bs : List Nat) : FS :=
  fun q => if q = p then some ((fs p).getD [] ++ bs) else fs q

/-- `open(p, 'ab')` with no write: creates the file when absent. -/
def ensureF (fs : FS) (p : String) : FS :=
  fun q => if q = p then some ((fs p).getD []) else fs q

/-- `shutil.move(src, dst)`: `dst` receives the content of `src`,
`src` disappears. -/
def moveF (fs : FS) (src dst : String) : FS :=
  fun q => if q = dst then fs src else if q = src then none else fs q

/-- The network oracle: what the remote side does for each URL.
The FTP connection cache (lines 31-38) is not modelled separately:
`ftpConnectOk` is deterministic per host, so caching changes only
how many connect events occur, never an outcome. -/
structure Env where
  /-- `True` when `get_instance_metadata` returns a non-empty mapping
  (line 307-309). -/
  ec2 : Bool
  /-- Whether `urllib.request.urlopen` succeeds on this URL; every
  failure mode is caught by the bare `except` (lines 189-193). -/
  httpOpenOk : String → Bool
  /-- Whether `FTP(host)`/`login` succeeds; a failure raises an
  uncaught `ftplib`/socket error (lines 33-38, 198-200). -/
  ftpConnectOk : String → Bool
  /-- Whether `list(ftp.mlsd(path))` is non-empty (line 203). -/
  ftpMlsdNonempty : String → Bool
  /-- Whether `get_bucket` succeeds; a missing bucket raises an
  uncaught `S3ResponseError` (line 288). -/
  s3BucketOk : String → Bool
  /-- Whether `get_key` returns a key object (`None` otherwise,
  line 290). -/
  s3KeyExists : String → Bool
  /-- The full remote content of each URL. -/
  content : String → List Nat
  /-- The size reported by `get_file_size` (lines 222-233). -/
  sizeOf : String → Nat

/-- Result of one computation that may raise a Python exception. -/
def PyRes (α : Type) : Type := Except String (α × St)

/-! ## Transport helpers -/

/-- `parse_ftp_url` host component (lines 40-45): Python raises
`IndexError` when the URL has no `//`; modelled with `getD`. -/
def ftp_host (url : String) : String :=
  headD (pySplit "/" ((pySplit "//" url).getD 1 "")) ""

/-- `parse_ftp_url` file-path component: `url.split(host)[1]`. -/
def ftp_file_path (url : String) : String :=
  (pySplit (ftp_host url) url).getD 1 ""

/-- The value of the `Range` header built at lines 86-87:
`'bytes={0}-'.format(current_byte)`. -/
def range_header (k : Nat) : String := "bytes=" ++ toString k ++ "-"

/-- A network object, as returned by `get_url_obj` (or the strings
`""`/`"error"` that flow through the same variable). -/
inductive NetObj where
  /-- An HTTP response stream positioned at `startByte` (the server
  honoured `Range: bytes=startByte-`). -/
  | httpRes (url : String) (startByte : Nat)
  /-- The `get_data` closure for an FTP transfer (lines 206-209). -/
  | ftpRetr (url : String)
  /-- A boto key object (line 211-213). -/
  | s3Key (url : String)
  /-- The string `"error"` (line 216). -/
  | err
  /-- The initial value `""` of `res` (line 89); never survives a
  non-empty URL list. -/
  | emptyStr
deriving DecidableEq, Repr

/-- `get_url_obj` (lines 184-216).  The HTTP branch catches every
open failure and falls through to `return "error"`; the FTP and S3
branches can raise uncaught exceptions (connection failure, missing
bucket).  An endpoint that matches none of the branches (e.g.
`HTTPS`) reaches `return "error"` directly. -/
def get_url_obj (env : Env) (url endpoint : String) (current_byte : Nat)
    (st : St) : PyRes NetObj :=
  if endpoint = "HTTP" then
    if env.httpOpenOk url then
      .ok (.httpRes url current_byte,
           emitSt st (.httpOpen url (range_header current_byte)))
    else
      .ok (.err, emitSt st (.httpOpen url (range_header current_byte)))
  else if endpoint = "FTP" then
    if env.ftpConnectOk (ftp_host url) then
      if env.ftpMlsdNonempty url then
        .ok (.ftpRetr url,
             emitSt (emitSt st (.ftpConnect (ftp_host url)))
               (.ftpMlsd (ftp_file_path url)))
      else
        .ok (.err,
             emitSt (emitSt st (.ftpConnect (ftp_host url)))
               (.ftpMlsd (ftp_file_path url)))
    else .error "ftplib: connection failed"
  else if endpoint = "S3" then
    if env.s3BucketOk url then
      if env.s3KeyExists url then
        .ok (.s3Key url, emitSt st (.s3GetBucket url))
      else
        .ok (.err, emitSt st (.s3GetBucket url))
    else .error "S3ResponseError"
  else .ok (.err, st)

/-- `get_file_size` (lines 222-233).  The HTTP branch re-opens the
URL without a `Range` header and does not catch failures; a fall-off
(unknown endpoint) returns Python `None`, which the caller then
compares against an `int` — modelled as the `TypeError` raised at
that comparison (line 120). -/
def get_file_size (env : Env) (url endpoint : String) (st : St) : PyRes Nat :=
  if endpoint = "HTTP" then
    if env.httpOpenOk url then .ok (env.sizeOf url, emitSt st (.httpSizeOpen url))
    else .error "urllib.error.URLError"
  else if endpoint = "FTP" then
    if env.ftpConnectOk (ftp_host url) then
      .ok (env.sizeOf url, emitSt st (.ftpSizeCmd url))
    else .error "ftplib: connection failed"
  else if endpoint = "S3" then
    if env.s3BucketOk url then .ok (env.sizeOf url, emitSt st (.s3GetBucket url))
    else .error "S3ResponseError"
  else .error "TypeError: NoneType comparison"

/-! ## Chunked reading -/

/-- Successive `res.read(block)` results of an HTTP stream holding
`bs`, until an empty read (`if not buffer: break`, lines 119-127).
Fuel-based recursion; `bs.length + 1` steps always suffice because a
non-empty read consumes at least one byte. -/
def read_chunks_go (block : Nat) : Nat → List Nat → List (List Nat)
  | 0, _ => []
  | fuel + 1, bs =>
    if (bs.take block).isEmpty then []
    else bs.take block :: read_chunks_go block fuel (bs.drop block)

/-- All chunks an HTTP stream holding `bs` yields for block size
`block`. -/
def read_chunks (block : Nat) (bs : List Nat) : List (List Nat) :=
  read_chunks_go block (bs.length + 1) bs

/-- One S3 ranged read (lines 268-278): request
`bytes=start-(start+block-1)`, the upper bound dropped when it
exceeds `size`; the arithmetic is over `Int` as in Python. -/
def s3_slice (content : List Nat) (block size start : Nat) : List Nat :=
  if ((start : Int) + block - 1 ≤ (size : Int)) then
    (content.drop start).take block
  else content.drop start

/-- The successive S3 chunks (lines 265-278 driven by the loop at
119-131): stop once `start_pos >= max_range` or a read comes back
empty. -/
def s3_chunks_go (content : List Nat) (block size : Nat) :
    Nat → Nat → List (List Nat)
  | 0, _ => []
  | fuel + 1, start =>
    if size ≤ start then []
    else
      let c := s3_slice content block size start
      if c.isEmpty then []
      else c :: s3_chunks_go content block size fuel (start + c.length)

/-- All S3 chunks starting from offset `start`. -/
def s3_chunks (content : List Nat) (block size start : Nat) :
    List (List Nat) :=
  s3_chunks_go content block size (size + 1 - start) start

/-- The body of the `while True` loop for pull-style transports:
each chunk is written to the partial file (`file.write(buffer)`,
line 129) and one read event is recorded. -/
def write_loop (tmp : String) (ev : Ev) : List (List Nat) → St → St
  | [], st => st
  | c :: rest, st =>
    write_loop tmp ev rest
      { fs := appendF st.fs tmp c, events := st.events ++ [ev] }

/-! ## Checksum — `checksum_matches` (lines 334-349) -/

/-- The byte stream absorbed by the running `hashlib.md5()` object
after the chunk loop: `md5.update(chunk)` for each chunk folds the
chunks in order. -/
def md5_fold (chunks : List (List Nat)) : List Nat :=
  chunks.foldl (fun acc c => acc ++ c) []

/-- `checksum_matches` on the content of the file (lines 338-344):
read in 4096-byte chunks until exhaustion, fold into the hash, then
compare `md5.hexdigest() == original_md5` exactly.  `md5hex`
abstracts `hexdigest` of the absorbed stream (a lowercase hex
string). -/
def checksum_matches (md5hex : List Nat → String) (bytes : List Nat)
    (original_md5 : String) : Bool :=
  md5hex (md5_fold (read_chunks 4096 bytes)) == original_md5

/-- `checksum_matches` applied to a path (line 339 opens the file;
a missing file raises `FileNotFoundError`). -/
def checksum_matches_file (md5hex : List Nat → String)
    (file_path original_md5 : String) (st : St) : PyRes Bool :=
  match st.fs file_path with
  | none => .error "FileNotFoundError"
  | some bytes => .ok (checksum_matches md5hex bytes original_md5, st)

/-! ## The per-entry engine — body of the manifest loop (lines 61-150) -/

/-- Python `url_list[0].split('/')[-1]` (line 72). -/
def basename (url : String) : String := lastD "" (pySplit "/" url)

/-- Python `"{0}:{1}".format(...)`-style path construction of
line 72. -/
def dest_path (destination url0 : String) : String :=
  destination ++ "/" ++ basename url0

/-- The mutable loop state of the URL loop (lines 89-102): `res`,
`endpoint`, `endpoints` and the loop variable `url`, all of which
survive the loop. -/
structure OpenState where
  res : NetObj
  endpoint : String
  endpoints : List String
  last_url : String
deriving Repr

/-- The URL loop (lines 92-102).  Each candidate is attempted; the
`if res == "error": continue` at the end of the body is a no-op, so
the loop never breaks early and `res`, `endpoint` and `url` end up
describing the LAST candidate.  For a `fasp` URL, line 96 calls
`get_fasp_obj(url)` although that function declares four required
positional parameters (line 154), so Python raises `TypeError`
before anything else happens. -/
def scheme_of (url : String) : String := pyToUpper (headD (pySplit ":" url) "")

def open_loop (env : Env) (current_byte : Nat) :
    List String → OpenState → St → Except String (OpenState × St)
  | [], acc, st => .ok (acc, st)
  | url :: rest, acc, st =>
    if scheme_of url = "FASP" then
      .error "TypeError: get_fasp_obj() missing 3 required positional arguments"
    else
      match get_url_obj env url (scheme_of url) current_byte st with
      | .error e => .error e
      | .ok (res, st) =>
        open_loop env current_byte rest
          { res := res, endpoint := scheme_of url,
            endpoints := acc.endpoints ++ [scheme_of url],
            last_url := url } st

/-- The transfer block (lines 111-137): open the partial file in
append mode (which creates it when absent), query the size, then
drive the chunk loop of the active transport.  `res` is never the
string `"error"` here (the caller checked), so the wildcard models
the `AttributeError` Python would raise calling `.read` on a
string. -/
def do_transfer (env : Env) (res : NetObj) (endpoint url tmp_file_name : String)
    (block_size current_byte : Nat) (st : St) : Except String St :=
  match get_file_size env url endpoint
      { fs := ensureF st.fs tmp_file_name,
        events := st.events ++ [.fsTouch tmp_file_name] } with
  | .error e => .error e
  | .ok (file_size, st) =>
    match res with
    | .httpRes u k =>
      .ok (write_loop tmp_file_name (.httpRead u)
            (read_chunks block_size ((env.content u).drop k)) st)
    | .ftpRetr u =>
      -- one get_buffer call: retrbinary(rest=start_pos) pushes the
      -- remainder through the callback, then returns None → break
      .ok { fs := appendF st.fs tmp_file_name ((env.content u).drop current_byte),
            events := st.events ++ [.ftpRetrieve u] }
    | .s3Key u =>
      .ok (write_loop tmp_file_name (.s3RangeRead u)
            (s3_chunks (env.content u) block_size file_size current_byte) st)
    | _ => .error "AttributeError"

/-- Lines 139-147: verify the partial file and either move it in
place (code 0) or record a checksum failure (code 3). -/
def finalize_entry (md5hex : List Nat → String)
    (tmp_file_name file_name original_md5 : String) (st : St) : PyRes Nat :=
  match checksum_matches_file md5hex tmp_file_name original_md5 st with
  | .error e => .error e
  | .ok (ok?, st) =>
    if ok? then
      .ok (0, { fs := moveF st.fs tmp_file_name file_name,
                events := st.events ++ [.fsMove tmp_file_name file_name] })
    else .ok (3, st)

/-- The body of the manifest loop (lines 61-150), producing the code
appended to `failed_files` for one entry. -/
def process_one (env : Env) (md5hex : List Nat → String)
    (destination priorities : String) (block_size : Nat) (mfile_urls mfile_md5 : String)
    (st : St) : PyRes Nat :=
  let url_list := get_prioritized_endpoint env.ec2 mfile_urls priorities
  if url_list = [] then .ok (1, st)
  else
    let file_name := dest_path destination (headD url_list "")
    if (st.fs file_name).isSome then
      -- line 149-150: file already done downloading
      .ok (0, st)
    else
      let tmp_file_name := file_name ++ ".partial"
      -- lines 79-81: resume offset from any existing partial file
      let current_byte := ((st.fs tmp_file_name).getD []).length
      match open_loop env current_byte url_list
          { res := .emptyStr, endpoint := "", endpoints := [], last_url := "" } st with
      | .error e => .error e
      | .ok (o, st) =>
        if o.res = .err then .ok (2, st)
        else
          match do_transfer env o.res o.endpoint o.last_url tmp_file_name
              block_size current_byte st with
          | .error e => .error e
          | .ok st => finalize_entry md5hex tmp_file_name file_name mfile_md5 st

/-- One manifest entry (id, comma-separated URL set, expected md5). -/
structure MFile where
  id : String
  urls : String
  md5 : String

/-- `download_manifest` (lines 53-152): iterate the manifest,
appending one code per entry; an uncaught exception aborts the whole
batch. -/
def download_manifest (env : Env) (md5hex : List Nat → String)
    (manifest : List MFile) (destination priorities : String)
    (block_size : Nat) (st : St) : PyRes (List Nat) :=
  match manifest with
  | [] => .ok ([], st)
  | m :: rest =>
    match process_one env md5hex destination priorities block_size m.urls m.md5 st with
    | .error e => .error e
    | .ok (code, st) =>
      match download_manifest env md5hex rest destination priorities block_size st with
      | .error e => .error e
      | .ok (codes, st) => .ok (code :: codes, st)

/-! ## Projections used to state results (the state contains a
function-typed filesystem, so claims are stated through decidable
projections) -/

/-- The outcome value of a run, `none` when it raised. -/
def run_val {α : Type} (r : PyRes α) : Option α :=
  match r with
  | .ok (v, _) => some v
  | .error _ => none

/-- The exception message of a run, `none` when it returned. -/
def run_exn {α : Type} (r : PyRes α) : Option String :=
  match r with
  | .ok _ => none
  | .error e => some e

/-- The final content of a path, `none` when the run raised or the
file is absent. -/
def run_fs {α : Type} (r : PyRes α) (p : String) : Option (List Nat) :=
  match r with
  | .ok (_, st) => st.fs p
  | .error _ => none

/-- The final event trace (empty when the run raised). -/
def run_events {α : Type} (r : PyRes α) : List Ev :=
  match r with
  | .ok (_, st) => st.events
  | .error _ => []

/-! ## `s3_get_key` URL parsing (lines 283-290) -/

/-- Split a char list at the first occurrence of `c` (Python
`split(c, 1)`): the part before, and — when `c` occurs — the part
after. -/
def split_first (c : Char) : List Char → List Char × Option (List Char)
  | [] => ([], none)
  | x :: rest =>
    if x = c then ([], some rest)
    else ((split_first c rest).1.cons x, (split_first c rest).2)

/-- Line 284: `url.lstrip('s3://')` — strips every leading character
in the set `{'s','3',':','/'}`, not the literal prefix. -/
def s3_strip (url : String) : List Char :=
  lstripSet ['s', '3', ':', '/'] url.data

/-- Line 285: `url.split('/', 1)[0]` after the strip. -/
def s3_bucket (url : String) : String :=
  ⟨(split_first '/' (s3_strip url)).1⟩

/-- Line 286: `url.split('/', 1)[1]` after the strip; `none` models
the `IndexError` Python raises when no slash remains. -/
def s3_key (url : String) : Option String :=
  ((split_first '/' (s3_strip url)).2).map fun l => ⟨l⟩

/-! ## Concrete environments and states used by counterexamples and
witnesses -/

/-- A stand-in `hexdigest`: injective enough for the scenarios used
below (distinguishes the byte strings that occur). -/
def md5D : List Nat → String :=
  fun bs => "h" ++ joinWith "x" (bs.map fun b => toString b) ++ "h"

/-- Empty filesystem, empty trace. -/
def st0 : St := { fs := fun _ => none, events := [] }

/-- A fully-permissive network with empty remote files. -/
def env0 : Env :=
  { ec2 := false
    httpOpenOk := fun _ => true
    ftpConnectOk := fun _ => true
    ftpMlsdNonempty := fun _ => true
    s3BucketOk := fun _ => true
    s3KeyExists := fun _ => true
    content := fun _ => []
    sizeOf := fun _ => 0 }

/-- Network for the C2 scenario: the first candidate opens fine, the
second does not. -/
def envC2 : Env :=
  { env0 with
    httpOpenOk := fun u => u != "http://bad/y"
    content := fun _ => [1] }

/-- Network for the C9 scenario: both candidates open; they serve
different content. -/
def envC9 : Env :=
  { env0 with
    content := fun u => if u = "http://b/two.bin" then [2, 3] else [1]
    sizeOf := fun _ => 2 }

/-- Network for the C5 witness: a four-byte remote file. -/
def envC5 : Env :=
  { env0 with
    content := fun _ => [10, 11, 12, 13]
    sizeOf := fun _ => 4 }

/-- Filesystem holding a two-byte partial file for the C5 witness. -/
def stC5 : St :=
  { fs := fun p => if p = "d/f.bin.partial" then some [10, 11] else none
    events := [] }

/-- Filesystem where the destination file already exists (C6
witness). -/
def stC6 : St :=
  { fs := fun p => if p = "d/f.bin" then some [7] else none
    events := [] }

/-- Filesystem holding a partial file for the C4 witness. -/
def stC4 : St :=
  { fs := fun p => if p = "d/x.partial" then some [1, 2] else none
    events := [] }

/-- The C1 scenario: a single-entry manifest whose only URL uses the
high-throughput-UDP (`fasp`) scheme. -/
def rC1 : PyRes (List Nat) :=
  download_manifest env0 md5D [⟨"F1", "fasp://server/data.bin", "d41d8cd9"⟩]
    "dest" "fasp" 4 st0

/-- The C2 scenario: first candidate opens fine, second one fails. -/
def rC2 : PyRes (List Nat) :=
  download_manifest envC2 md5D [⟨"F1", "http://good/x,http://bad/y", "m"⟩]
    "d" "http" 4 st0

/-- The C7 scenario: a single `https` URL against priority `http`. -/
def rC7 : PyRes (List Nat) :=
  download_manifest env0 md5D [⟨"F1", "https://a/x.bin", "m"⟩] "d" "http" 4 st0

/-- The C9 scenario: two candidates with different basenames, both
reachable; the expected digest matches the content of the SECOND
candidate. -/
def rC9 : PyRes (List Nat) :=
  download_manifest envC9 md5D
    [⟨"F1", "http://a/one.bin,http://b/two.bin", md5D [2, 3]⟩] "d" "http" 4 st0

/-- The C9 scenario run through the per-entry engine. -/
def rC9p : PyRes Nat :=
  process_one envC9 md5D "d" "http" 4 "http://a/one.bin,http://b/two.bin"
    (md5D [2, 3]) st0

/-- The final state of the C9 per-entry run. -/
def stC9 : St :=
  match rC9p with
  | .ok (_, s) => s
  | .error _ => st0


/-! ## Lemmas about chunked reading -/

theorem read_chunks_go_join (block : Nat) (hb : 0 < block) :
    ∀ (fuel : Nat) (bs : List Nat), bs.length < fuel →
      (read_chunks_go block fuel bs).flatten = bs := by
  intro fuel
  induction fuel with
  | zero => intro bs h; omega
  | succ n ih =>
    intro bs h
    rw [read_chunks_go]
    by_cases he : (bs.take block).isEmpty
    · rw [if_pos he]
      have : bs.take block = [] := by
        simpa [List.isEmpty_iff] using he
      rcases List.take_eq_nil_iff.mp this with h0 | h0
      · omega
      · simp [h0]
    · rw [if_neg he]
      have hbs : bs ≠ [] := by
        intro h0; simp [h0] at he
      have hlen : 0 < bs.length := List.length_pos.mpr hbs
      have hdrop : (bs.drop block).length < n := by
        rw [List.length_drop]; omega
      rw [List.flatten, ih (bs.drop block) hdrop, List.take_append_drop]

/-- Core fact behind resume correctness and the checksum contract:
reading a stream in blocks until exhaustion reproduces the stream. -/
theorem read_chunks_join (block : Nat) (hb : 0 < block) (bs : List Nat) :
    (read_chunks block bs).flatten = bs :=
  read_chunks_go_join block hb (bs.length + 1) bs (Nat.lt_succ_self _)

theorem foldl_append_eq_join (cs : List (List Nat)) :
    ∀ acc : List Nat, cs.foldl (fun a c => a ++ c) acc = acc ++ cs.flatten := by
  induction cs with
  | nil => intro acc; simp
  | cons c rest ih => intro acc; simp [List.foldl_cons, ih, List.append_assoc]

/-- `md5_fold` absorbs exactly the concatenation of the chunks. -/
theorem md5_fold_eq_join (cs : List (List Nat)) : md5_fold cs = cs.flatten := by
  simp [md5_fold, foldl_append_eq_join]

/-! ## Lemmas about the selector -/

theorem foldl_filter_map (p : String → Bool) (f : String → String) :
    ∀ (urls acc : List String),
      urls.foldl (fun a u => if p u then a ++ [f u] else a) acc
        = acc ++ (urls.filter p).map f := by
  intro urls
  induction urls with
  | nil => intro acc; simp
  | cons u rest ih =>
    intro acc
    by_cases hp : p u
    · simp [List.foldl_cons, hp, ih, List.filter_cons, List.append_assoc]
    · simp [List.foldl_cons, hp, ih, List.filter_cons]

theorem gpe_outer_foldl (urls : List String) :
    ∀ (eps acc : List String),
      eps.foldl
        (fun url_list ep =>
          urls.foldl
            (fun url_list url =>
              if pyStartsWith url (pyToLower ep) then
                url_list ++ [apply_demo_fix url]
              else url_list)
            url_list)
        acc
      = acc ++ eps.flatMap
          (fun ep => (urls.filter fun u => pyStartsWith u (pyToLower ep)).map
            apply_demo_fix) := by
  intro eps
  induction eps with
  | nil => intro acc; simp
  | cons ep rest ih =>
    intro acc
    simp only [List.foldl_cons, List.flatMap_cons]
    rw [foldl_filter_map, ih, List.append_assoc]

/-- Characterization of `get_prioritized_endpoint` for an explicit
priority list (first token non-empty, so the EC2 probe is skipped):
for each priority token in order, the URL-set entries whose text
starts with the lower-cased token are appended, in input order, with
the demo rewrite applied. -/
theorem gpe_spec (ec2 : Bool) (manifest_urls priorities : String)
    (h : headD (pySplit "," priorities) "" ≠ "") :
    get_prioritized_endpoint ec2 manifest_urls priorities
      = (pySplit "," priorities).flatMap
          (fun ep => ((pySplit "," manifest_urls).filter fun u =>
              pyStartsWith u (pyToLower ep)).map apply_demo_fix) := by
  unfold get_prioritized_endpoint
  simp only [if_neg h]
  rw [gpe_outer_foldl]
  simp

/-- When no URL of the set starts with any (lower-cased) priority
token, the selector returns the empty list. -/
theorem gpe_empty_of_no_match (ec2 : Bool) (manifest_urls priorities : String)
    (h : headD (pySplit "," priorities) "" ≠ "")
    (hno : ∀ ep ∈ pySplit "," priorities, ∀ u ∈ pySplit "," manifest_urls,
      pyStartsWith u (pyToLower ep) = false) :
    get_prioritized_endpoint ec2 manifest_urls priorities = [] := by
  rw [gpe_spec ec2 manifest_urls priorities h]
  apply List.eq_nil_iff_forall_not_mem.mpr
  intro x hx
  rw [List.mem_flatMap] at hx
  obtain ⟨ep, hep, hx⟩ := hx
  rw [List.mem_map] at hx
  obtain ⟨u, hu, _⟩ := hx
  rw [List.mem_filter] at hu
  have := hno ep hep u hu.1
  rw [this] at hu
  exact Bool.false_ne_true hu.2

/-! ## Small string facts -/

theorem string_data_append (s t : String) : (s ++ t).data = s.data ++ t.data := by
  cases s; cases t; rfl

theorem string_ne_append (s t : String) (h : t.data ≠ []) : s ≠ s ++ t := by
  intro he
  have hd := congrArg (fun x : String => x.data.length) he
  simp only [string_data_append, List.length_append] at hd
  have : t.data.length = 0 := by omega
  exact h (List.length_eq_zero.mp this)

theorem dest_ne_tmp (fn : String) : fn ≠ fn ++ ".partial" :=
  string_ne_append fn ".partial" (by decide)

/-! ## Lemmas about the write loop -/

theorem write_loop_fs_other (tmp p : String) (hne : p ≠ tmp) (ev : Ev) :
    ∀ (cs : List (List Nat)) (st : St),
      (write_loop tmp ev cs st).fs p = st.fs p := by
  intro cs
  induction cs with
  | nil => intro st; rfl
  | cons c rest ih =>
    intro st
    rw [write_loop, ih]
    simp [appendF, hne]

theorem write_loop_fs_self (tmp : String) (ev : Ev) :
    ∀ (cs : List (List Nat)) (st : St) (cur : List Nat),
      st.fs tmp = some cur →
      (write_loop tmp ev cs st).fs tmp = some (cur ++ cs.flatten) := by
  intro cs
  induction cs with
  | nil => intro st cur h; simpa [write_loop] using h
  | cons c rest ih =>
    intro st cur h
    rw [write_loop]
    rw [ih _ (cur ++ c) (by simp [appendF, h])]
    simp [List.append_assoc]

theorem write_loop_events (tmp : String) (ev : Ev) :
    ∀ (cs : List (List Nat)) (st : St),
      (write_loop tmp ev cs st).events
        = st.events ++ List.replicate cs.length ev := by
  intro cs
  induction cs with
  | nil => intro st; simp [write_loop]
  | cons c rest ih =>
    intro st
    rw [write_loop, ih]
    simp [List.replicate_succ, List.append_assoc]

/-! ## State preservation of the transport calls -/

theorem pyres_ok_inj {α : Type} {a : α} {s : St} {b : α} {t : St}
    (h : (Except.ok (a, s) : PyRes α) = .ok (b, t)) : a = b ∧ s = t := by
  injection h with h1
  exact ⟨congrArg Prod.fst h1, congrArg Prod.snd h1⟩

theorem get_url_obj_fs (env : Env) (url ep : String) (k : Nat) (st : St)
    (res : NetObj) (st' : St)
    (h : get_url_obj env url ep k st = .ok (res, st')) : st'.fs = st.fs := by
  unfold get_url_obj at h
  repeat' split at h
  all_goals
    first
    | exact Except.noConfusion h
    | (obtain ⟨-, h2⟩ := pyres_ok_inj h; subst h2; rfl)

theorem get_file_size_fs (env : Env) (url ep : String) (st : St)
    (n : Nat) (st' : St)
    (h : get_file_size env url ep st = .ok (n, st')) : st'.fs = st.fs := by
  unfold get_file_size at h
  repeat' split at h
  all_goals
    first
    | exact Except.noConfusion h
    | (obtain ⟨-, h2⟩ := pyres_ok_inj h; subst h2; rfl)

theorem open_loop_fs (env : Env) (k : Nat) :
    ∀ (urls : List String) (acc : OpenState) (st : St) (o : OpenState) (st' : St),
      open_loop env k urls acc st = .ok (o, st') → st'.fs = st.fs := by
  intro urls
  induction urls with
  | nil =>
    intro acc st o st' h
    rw [open_loop] at h
    obtain ⟨-, h2⟩ := pyres_ok_inj h
    rw [← h2]
  | cons url rest ih =>
    intro acc st o st' h
    rw [open_loop] at h
    split at h
    · exact Except.noConfusion h
    · split at h
      · exact Except.noConfusion h
      · next res st1 heq =>
        rw [ih _ _ _ _ h]
        exact get_url_obj_fs env url _ k st res st1 heq

theorem do_transfer_fs_other (env : Env) (res : NetObj)
    (ep url tmp p : String) (hne : p ≠ tmp) (bs cb : Nat) (st st' : St)
    (h : do_transfer env res ep url tmp bs cb st = .ok st') :
    st'.fs p = st.fs p := by
  have hens : ensureF st.fs tmp p = st.fs p := by simp [ensureF, hne]
  unfold do_transfer at h
  split at h
  · exact Except.noConfusion h
  · next file_size st1 heq =>
    have hfs1 : st1.fs = ensureF st.fs tmp :=
      get_file_size_fs env url ep _ file_size st1 heq
    split at h
    · injection h with h1
      rw [← h1, write_loop_fs_other tmp p hne, hfs1, hens]
    · injection h with h1
      rw [← h1]
      simp only [appendF, if_neg hne]
      rw [hfs1, hens]
    · injection h with h1
      rw [← h1, write_loop_fs_other tmp p hne, hfs1, hens]
    · exact Except.noConfusion h

theorem checksum_matches_file_st (md5hex : List Nat → String)
    (path md5v : String) (st : St) (b : Bool) (st' : St)
    (h : checksum_matches_file md5hex path md5v st = .ok (b, st')) :
    st' = st := by
  unfold checksum_matches_file at h
  split at h
  · exact Except.noConfusion h
  · obtain ⟨-, h2⟩ := pyres_ok_inj h
    exact h2.symm

theorem finalize_entry_fs_other (md5hex : List Nat → String)
    (tmp fn md5v p : String) (hp1 : p ≠ tmp) (hp2 : p ≠ fn)
    (st : St) (c : Nat) (st' : St)
    (h : finalize_entry md5hex tmp fn md5v st = .ok (c, st')) :
    st'.fs p = st.fs p := by
  unfold finalize_entry at h
  split at h
  · exact Except.noConfusion h
  · next b st2 heq =>
    have hst2 : st2 = st := checksum_matches_file_st md5hex tmp md5v st b st2 heq
    subst hst2
    split at h
    · obtain ⟨-, h2⟩ := pyres_ok_inj h
      rw [← h2]
      simp [moveF, hp1, hp2]
    · obtain ⟨-, h2⟩ := pyres_ok_inj h
      rw [← h2]

/-! ## Symbolic execution of the single-candidate HTTP path -/

theorem open_loop_single_http (env : Env) (url : String)
    (hep : scheme_of url = "HTTP") (hok : env.httpOpenOk url = true)
    (k : Nat) (acc : OpenState) (st : St) :
    open_loop env k [url] acc st
      = .ok ({ res := .httpRes url k, endpoint := "HTTP",
               endpoints := acc.endpoints ++ ["HTTP"], last_url := url },
             emitSt st (.httpOpen url (range_header k))) := by
  rw [open_loop, hep]
  rw [if_neg (by decide)]
  rw [get_url_obj, if_pos rfl, if_pos hok]
  rfl

theorem do_transfer_http (env : Env) (u : String)
    (hok : env.httpOpenOk u = true) (tmp : String) (k bs cb : Nat) (st : St) :
    do_transfer env (.httpRes u k) "HTTP" u tmp bs cb st
      = .ok (write_loop tmp (.httpRead u)
              (read_chunks bs ((env.content u).drop k))
              { fs := ensureF st.fs tmp,
                events := (st.events ++ [.fsTouch tmp]) ++ [.httpSizeOpen u] }) := by
  rw [do_transfer, get_file_size, if_pos rfl, if_pos hok]
  rfl

/-- The HTTP path of one entry whose candidate list is the single URL
`url`, whose destination file is absent, and whose partial file (if
any) holds a length-`K` prefix of the remote content: the `Range`
header requests `bytes=K-` and the partial file ends up holding the
complete remote content, which is then handed to `finalize_entry`. -/
theorem process_one_http_resume (env : Env) (md5hex : List Nat → String)
    (destination priorities url mfile_urls mfile_md5 : String)
    (block_size : Nat) (st : St) (K : Nat)
    (hsel : get_prioritized_endpoint env.ec2 mfile_urls priorities = [url])
    (hep : scheme_of url = "HTTP")
    (hok : env.httpOpenOk url = true)
    (hbs : 0 < block_size)
    (hni : st.fs (dest_path destination url) = none)
    (hpart : (st.fs (dest_path destination url ++ ".partial")).getD []
      = (env.content url).take K)
    (hK : K ≤ (env.content url).length) :
    ∃ st3 : St,
      process_one env md5hex destination priorities block_size
          mfile_urls mfile_md5 st
        = finalize_entry md5hex (dest_path destination url ++ ".partial")
            (dest_path destination url) mfile_md5 st3
      ∧ st3.fs (dest_path destination url ++ ".partial") = some (env.content url)
      ∧ st3.events
        = ((st.events ++ [.httpOpen url (range_header K)]
            ++ [.fsTouch (dest_path destination url ++ ".partial")])
            ++ [.httpSizeOpen url])
          ++ List.replicate
              (read_chunks block_size ((env.content url).drop K)).length
              (.httpRead url) := by
  have hcb : ((st.fs (dest_path destination url ++ ".partial")).getD []).length = K := by
    rw [hpart, List.length_take]
    omega
  refine ⟨write_loop (dest_path destination url ++ ".partial") (.httpRead url)
      (read_chunks block_size ((env.content url).drop K))
      { fs := ensureF st.fs (dest_path destination url ++ ".partial"),
        events := ((st.events ++ [.httpOpen url (range_header K)])
          ++ [.fsTouch (dest_path destination url ++ ".partial")])
          ++ [.httpSizeOpen url] }, ?_, ?_, ?_⟩
  · simp only [process_one, hsel, headD, List.headD, hni, hcb]
    simp [open_loop_single_http env url hep hok, do_transfer_http env url hok,
      emitSt]
  · rw [write_loop_fs_self _ _ _ _ ((env.content url).take K)
      (by simp [ensureF, hpart])]
    rw [read_chunks_join block_size hbs, List.take_append_drop]
  · rw [write_loop_events]


/-! ## Claims -/

/-- Claim C1.  The spec asserts `download_manifest` never raises on a
per-entry failure and always returns one outcome code per manifest
entry.  The code, however, calls `get_fasp_obj(url)` (line 96) while
that function requires four positional parameters (line 154), so a
manifest entry whose selected URL uses the `fasp` scheme makes the
whole batch raise `TypeError` and no outcome list is produced. -/
theorem claim_C1_fasp_entry_raises :
    run_exn rC1
      = some "TypeError: get_fasp_obj() missing 3 required positional arguments"
    ∧ run_val rC1 = none := by
  constructor <;> decide

/-- Claim C2.  The spec asserts the first candidate whose open
succeeds is used, and only when every candidate's open fails is the
outcome `EndpointUnreachable` (2).  The URL loop (lines 92-102) never
breaks on success, so only the LAST candidate's open result is ever
inspected: here the first candidate's open succeeds and the second
fails, yet the entry is recorded as 2 and nothing is transferred. -/
theorem claim_C2_last_candidate_decides :
    envC2.httpOpenOk "http://good/x" = true
    ∧ Ev.httpOpen "http://good/x" (range_header 0) ∈ run_events rC2
    ∧ run_val rC2 = some [2]
    ∧ run_fs rC2 "d/x" = none
    ∧ run_fs rC2 "d/x.partial" = none := by
  refine ⟨by decide, by decide, by decide, by decide, by decide⟩

/-- Claim C3, counterexample.  The selector matches by string prefix
(`url.startswith(ep.lower())`, line 317), so with priority list
`http` a URL of scheme `https` — a scheme NOT in the priority set —
is selected, contradicting "returns only URLs whose scheme appears in
the priority set". -/
theorem claim_C3_scheme_cex :
    get_prioritized_endpoint false "https://a/x" "http" = ["https://a/x"]
    ∧ urlScheme "https://a/x" = "https"
    ∧ "https" ∉ pySplit "," "http" := by
  refine ⟨by decide, by decide, by decide⟩

/-- Claim C3, amended: for a non-empty priority token list the
selector returns, for each priority token in order, every URL of the
set whose TEXT starts with the lower-cased token (so e.g. `https`
URLs match the token `http`, and a URL matching several tokens
appears once per token), in the set's original order, with the demo
rewrite applied; an empty URL set or a priority set matching nothing
yields `[]`. -/
theorem claim_C3_prefix_match (ec2 : Bool) (manifest_urls priorities : String)
    (h : headD (pySplit "," priorities) "" ≠ "") :
    get_prioritized_endpoint ec2 manifest_urls priorities
      = (pySplit "," priorities).flatMap
          (fun ep => ((pySplit "," manifest_urls).filter fun u =>
              pyStartsWith u (pyToLower ep)).map apply_demo_fix) :=
  gpe_spec ec2 manifest_urls priorities h

/-- Witness for C3 at a concrete input. -/
theorem claim_C3_witness :
    get_prioritized_endpoint false "http://a/x,ftp://b/y" "ftp,http"
      = (pySplit "," "ftp,http").flatMap
          (fun ep => ((pySplit "," "http://a/x,ftp://b/y").filter fun u =>
              pyStartsWith u (pyToLower ep)).map apply_demo_fix) :=
  claim_C3_prefix_match false "http://a/x,ftp://b/y" "ftp,http" (by decide)

/-- Claim C4.  Lines 139-147: when the digest of the partial file
matches the expected digest, the partial file is renamed onto the
final destination and the code is 0; otherwise the code is 3, the
filesystem is untouched (no rename) and the partial file stays on
disk. -/
theorem claim_C4_checksum_gate (md5hex : List Nat → String) (fn md5v : String)
    (st : St) (bytes : List Nat)
    (hpart : st.fs (fn ++ ".partial") = some bytes) :
    (md5hex bytes = md5v →
      finalize_entry md5hex (fn ++ ".partial") fn md5v st
        = .ok (0, { fs := moveF st.fs (fn ++ ".partial") fn,
                    events := st.events ++ [.fsMove (fn ++ ".partial") fn] })
      ∧ moveF st.fs (fn ++ ".partial") fn fn = some bytes
      ∧ moveF st.fs (fn ++ ".partial") fn (fn ++ ".partial") = none)
    ∧ (md5hex bytes ≠ md5v →
      finalize_entry md5hex (fn ++ ".partial") fn md5v st = .ok (3, st)) := by
  have hcs : checksum_matches md5hex bytes md5v = (md5hex bytes == md5v) := by
    rw [checksum_matches, md5_fold_eq_join, read_chunks_join 4096 (by omega)]
  constructor
  · intro heq
    refine ⟨?_, ?_, ?_⟩
    · simp only [finalize_entry, checksum_matches_file, hpart, hcs, heq,
        beq_self_eq_true, if_true]
    · simp [moveF, hpart]
    · simp only [moveF]
      rw [if_neg (Ne.symm (dest_ne_tmp fn))]
      simp
  · intro hne
    simp only [finalize_entry, checksum_matches_file, hpart, hcs]
    rw [beq_eq_false_iff_ne.mpr hne]
    simp

/-- Witness for C4 at a concrete input. -/
theorem claim_C4_witness :
    (md5D [1, 2] = md5D [1, 2] →
      finalize_entry md5D ("d/x" ++ ".partial") "d/x" (md5D [1, 2]) stC4
        = .ok (0, { fs := moveF stC4.fs ("d/x" ++ ".partial") "d/x",
                    events := stC4.events ++ [.fsMove ("d/x" ++ ".partial") "d/x"] })
      ∧ moveF stC4.fs ("d/x" ++ ".partial") "d/x" "d/x" = some [1, 2]
      ∧ moveF stC4.fs ("d/x" ++ ".partial") "d/x" ("d/x" ++ ".partial") = none)
    ∧ (md5D [1, 2] ≠ md5D [1, 2] →
      finalize_entry md5D ("d/x" ++ ".partial") "d/x" (md5D [1, 2]) stC4
        = .ok (3, stC4)) :=
  claim_C4_checksum_gate md5D "d/x" (md5D [1, 2]) stC4 [1, 2] (by decide)

/-- Claim C6.  Lines 72-76 and 149-150: when the selected candidate
list is non-empty and the final destination file already exists, the
entry's code is 0 and the state — filesystem AND event trace — is
returned untouched: no transport call, no write. -/
theorem claim_C6_existing_skip (env : Env) (md5hex : List Nat → String)
    (destination priorities mfile_urls mfile_md5 : String)
    (block_size : Nat) (st : St)
    (hne : get_prioritized_endpoint env.ec2 mfile_urls priorities ≠ [])
    (hex : (st.fs (dest_path destination
        (headD (get_prioritized_endpoint env.ec2 mfile_urls priorities) ""))).isSome
        = true) :
    process_one env md5hex destination priorities block_size
        mfile_urls mfile_md5 st = .ok (0, st) := by
  simp only [process_one]
  rw [if_neg hne, if_pos hex]

/-- Witness for C6 at a concrete input. -/
theorem claim_C6_witness :
    process_one env0 md5D "d" "http" 4 "http://h/f.bin" "m" stC6 = .ok (0, stC6) :=
  claim_C6_existing_skip env0 md5D "d" "http" "http://h/f.bin" "m" 4 stC6
    (by decide) (by decide)

/-- Claim C7, counterexample.  An entry whose only URL has scheme
`https` — not present in the priority list `http` — is claimed to
yield `NoValidEndpoint` (1); but prefix matching selects the URL,
`get_url_obj` has no `HTTPS` branch (lines 186-216), and the entry is
recorded as `EndpointUnreachable` (2) instead (still with no
transport event and no file). -/
theorem claim_C7_https_cex :
    run_val rC7 = some [2]
    ∧ run_events rC7 = []
    ∧ run_fs rC7 "d/x.bin" = none
    ∧ run_fs rC7 "d/x.bin.partial" = none
    ∧ urlScheme "https://a/x.bin" = "https"
    ∧ "https" ∉ pySplit "," "http" := by
  refine ⟨by decide, by decide, by decide, by decide, by decide, by decide⟩

/-- Claim C7, amended: when NO URL of the entry's set starts with any
lower-cased priority token (in particular when the URL set is empty),
the entry's code is 1 and the state is returned untouched: no
transport call, no file created. -/
theorem claim_C7_no_match (env : Env) (md5hex : List Nat → String)
    (destination priorities mfile_urls mfile_md5 : String)
    (block_size : Nat) (st : St)
    (hp0 : headD (pySplit "," priorities) "" ≠ "")
    (hno : ∀ ep ∈ pySplit "," priorities, ∀ u ∈ pySplit "," mfile_urls,
      pyStartsWith u (pyToLower ep) = false) :
    process_one env md5hex destination priorities block_size
        mfile_urls mfile_md5 st = .ok (1, st) := by
  have h := gpe_empty_of_no_match env.ec2 mfile_urls priorities hp0 hno
  simp [process_one, h]

/-- Witness for C7 at a concrete input. -/
theorem claim_C7_witness :
    process_one env0 md5D "d" "http" 4 "ftp://b/y" "m" st0 = .ok (1, st0) :=
  claim_C7_no_match env0 md5D "d" "http" "ftp://b/y" "m" 4 st0
    (by decide) (by decide)

/-- Claim C8.  `checksum_matches` (lines 334-349) reads the file in
4096-byte chunks until exhaustion and folds every chunk into the
running MD5, so the absorbed stream is exactly the whole file; the
result is `true` iff the digest of the whole content equals the
expected string under Python `==` (exact comparison; `hexdigest()` is
lowercase, so this follows the expected digest's case convention). -/
theorem claim_C8_checksum_contract (md5hex : List Nat → String)
    (bytes : List Nat) (original_md5 : String) :
    md5_fold (read_chunks 4096 bytes) = bytes
    ∧ (checksum_matches md5hex bytes original_md5 = true
        ↔ md5hex bytes = original_md5) := by
  have h : md5_fold (read_chunks 4096 bytes) = bytes := by
    rw [md5_fold_eq_join, read_chunks_join 4096 (by omega)]
  refine ⟨h, ?_⟩
  rw [checksum_matches, h]
  exact beq_iff_eq


/-- Claim C5.  For an entry whose destination file is absent, whose
candidate list is one HTTP URL, and whose partial file (possibly
absent, i.e. empty) holds the length-`K` prefix of the remote
content: the open carries `Range: bytes=K-` (lines 79-87), the
response is appended to the partial file, and the assembled file —
wherever it ends up after verification — is exactly the full remote
content, with no duplicated or skipped bytes. -/
theorem claim_C5_resume (env : Env) (md5hex : List Nat → String)
    (destination priorities url mfile_urls mfile_md5 : String)
    (block_size : Nat) (st : St) (K : Nat)
    (hsel : get_prioritized_endpoint env.ec2 mfile_urls priorities = [url])
    (hep : scheme_of url = "HTTP")
    (hok : env.httpOpenOk url = true)
    (hbs : 0 < block_size)
    (hni : st.fs (dest_path destination url) = none)
    (hpart : (st.fs (dest_path destination url ++ ".partial")).getD []
      = (env.content url).take K)
    (hK : K ≤ (env.content url).length) :
    Ev.httpOpen url (range_header K)
      ∈ run_events (process_one env md5hex destination priorities block_size
          mfile_urls mfile_md5 st)
    ∧ (run_fs (process_one env md5hex destination priorities block_size
          mfile_urls mfile_md5 st) (dest_path destination url)
        = some (env.content url)
      ∨ run_fs (process_one env md5hex destination priorities block_size
          mfile_urls mfile_md5 st) (dest_path destination url ++ ".partial")
        = some (env.content url)) := by
  obtain ⟨st3, heq, hfs, hev⟩ := process_one_http_resume env md5hex destination
    priorities url mfile_urls mfile_md5 block_size st K hsel hep hok hbs hni
    hpart hK
  rw [heq]
  simp only [finalize_entry, checksum_matches_file, hfs]
  by_cases hc : checksum_matches md5hex (env.content url) mfile_md5 = true
  · rw [if_pos hc]
    constructor
    · simp [run_events, hev]
    · left
      simp [run_fs, moveF, hfs]
  · rw [if_neg hc]
    constructor
    · simp [run_events, hev]
    · right
      simp [run_fs, hfs]

/-- Witness for C5: resuming a 4-byte remote file from a 2-byte
partial file. -/
theorem claim_C5_witness :
    Ev.httpOpen "http://h/f.bin" (range_header 2)
      ∈ run_events (process_one envC5 md5D "d" "http" 2 "http://h/f.bin" "m" stC5)
    ∧ (run_fs (process_one envC5 md5D "d" "http" 2 "http://h/f.bin" "m" stC5)
          (dest_path "d" "http://h/f.bin")
        = some (envC5.content "http://h/f.bin")
      ∨ run_fs (process_one envC5 md5D "d" "http" 2 "http://h/f.bin" "m" stC5)
          (dest_path "d" "http://h/f.bin" ++ ".partial")
        = some (envC5.content "http://h/f.bin")) :=
  claim_C5_resume envC5 md5D "d" "http" "http://h/f.bin" "http://h/f.bin" "m"
    2 stC5 2 (by decide) (by decide) (by decide) (by decide) (by decide)
    (by decide) (by decide)

/-- Claim C9, counterexample.  The file name is built from
`url_list[0]` (line 72), while the transfer uses the LAST candidate
(lines 92-102): here the content of `http://b/two.bin` is verified and
installed, yet the completed file lives at `d/one.bin` — the basename
of the FIRST candidate — and no file named after the transferred
(chosen) URL exists. -/
theorem claim_C9_basename_cex :
    run_val rC9 = some [0]
    ∧ run_fs rC9 "d/one.bin" = some [2, 3]
    ∧ run_fs rC9 "d/two.bin" = none
    ∧ run_fs rC9 "d/two.bin.partial" = none
    ∧ Ev.httpRead "http://b/two.bin" ∈ run_events rC9
    ∧ basename "http://b/two.bin" = "two.bin" := by
  refine ⟨by decide, by decide, by decide, by decide, by decide, by decide⟩

/-- Claim C9, amended: every on-disk artifact of one entry lives at
`destination/<basename of the FIRST candidate of the prioritized
list>` or at that path plus `.partial`; every other path is
untouched (the transfer itself may be served by a different — the
last — candidate). -/
theorem claim_C9_write_locality (env : Env) (md5hex : List Nat → String)
    (destination priorities mfile_urls mfile_md5 : String) (block_size : Nat)
    (st : St) (c : Nat) (st' : St)
    (h : process_one env md5hex destination priorities block_size
        mfile_urls mfile_md5 st = .ok (c, st'))
    (p : String)
    (hp1 : p ≠ dest_path destination
        (headD (get_prioritized_endpoint env.ec2 mfile_urls priorities) ""))
    (hp2 : p ≠ dest_path destination
        (headD (get_prioritized_endpoint env.ec2 mfile_urls priorities) "")
        ++ ".partial") :
    st'.fs p = st.fs p := by
  simp only [process_one] at h
  split at h
  · obtain ⟨-, h2⟩ := pyres_ok_inj h
    rw [← h2]
  · split at h
    · obtain ⟨-, h2⟩ := pyres_ok_inj h
      rw [← h2]
    · split at h
      · exact Except.noConfusion h
      · next o st1 heq =>
        have h1 : st1.fs = st.fs := open_loop_fs env _ _ _ _ _ _ heq
        split at h
        · obtain ⟨-, h2⟩ := pyres_ok_inj h
          rw [← h2, h1]
        · split at h
          · exact Except.noConfusion h
          · next st2 heq2 =>
            have hdt : st2.fs p = st1.fs p :=
              do_transfer_fs_other env _ _ _ _ p hp2 _ _ _ _ heq2
            have hfin : st'.fs p = st2.fs p :=
              finalize_entry_fs_other md5hex _ _ _ p hp2 hp1 _ _ _ h
            rw [hfin, hdt, h1]

/-- Witness for C9: in the C9 scenario an unrelated path is
untouched. -/
theorem claim_C9_witness : stC9.fs "d/other" = st0.fs "d/other" :=
  claim_C9_write_locality envC9 md5D "d" "http"
    "http://a/one.bin,http://b/two.bin" (md5D [2, 3]) 4 st0 0 stC9 rfl
    "d/other" (by decide) (by decide)

/-- Claim C10.  `s3_get_key` strips the scheme with
`url.lstrip('s3://')` (line 284), which removes ALL leading
characters drawn from `{'s','3',':','/'}`: when the first character
after `s3://` is outside that set, bucket and key are exactly the
host segment and the remaining path; but for
`s3://sample-bucket/key` the leading `s` of the bucket is also
stripped and the parsed bucket differs from the URL's host
segment. -/
theorem claim_C10_lstrip (rest : List Char) (c : Char)
    (hc : rest.head? = some c) (hnotin : c ∉ ['s', '3', ':', '/']) :
    (s3_bucket ⟨"s3://".data ++ rest⟩ = ⟨(split_first '/' rest).1⟩
     ∧ s3_key ⟨"s3://".data ++ rest⟩
        = ((split_first '/' rest).2).map (fun l => (⟨l⟩ : String)))
    ∧ s3_bucket "s3://sample-bucket/key"
        ≠ ⟨(split_first '/' "sample-bucket/key".data).1⟩ := by
  constructor
  · cases rest with
    | nil => exact absurd hc (by simp)
    | cons x xs =>
      obtain rfl : x = c := Option.some.inj hc
      have hstrip : s3_strip ⟨"s3://".data ++ (x :: xs)⟩ = x :: xs := by
        show lstripSet ['s', '3', ':', '/'] ("s3://".data ++ (x :: xs)) = x :: xs
        have h5 : "s3://".data ++ (x :: xs)
            = 's' :: '3' :: ':' :: '/' :: '/' :: x :: xs := rfl
        rw [h5]
        rw [lstripSet, if_pos (by decide)]
        rw [lstripSet, if_pos (by decide)]
        rw [lstripSet, if_pos (by decide)]
        rw [lstripSet, if_pos (by decide)]
        rw [lstripSet, if_pos (by decide)]
        rw [lstripSet, if_neg hnotin]
      constructor
      · show (⟨(split_first '/' (s3_strip ⟨"s3://".data ++ (x :: xs)⟩)).1⟩ : String) = _
        rw [hstrip]
      · show ((split_first '/' (s3_strip ⟨"s3://".data ++ (x :: xs)⟩)).2).map _ = _
        rw [hstrip]
  · decide

/-- Witness for C10 at a concrete URL with a benign bucket name. -/
theorem claim_C10_witness :
    (s3_bucket ⟨"s3://".data ++ "bucket/key".data⟩
        = ⟨(split_first '/' "bucket/key".data).1⟩
     ∧ s3_key ⟨"s3://".data ++ "bucket/key".data⟩
        = ((split_first '/' "bucket/key".data).2).map (fun l => (⟨l⟩ : String)))
    ∧ s3_bucket "s3://sample-bucket/key"
        ≠ ⟨(split_first '/' "sample-bucket/key".data).1⟩ :=
  claim_C10_lstrip "bucket/key".data 'b' (by decide) (by decide)

end Portal
